import Mathlib

/-!
Verification of the cartridge-accounting ledger against its specification.

The definitions below are a shallow embedding of the inventory ledger of
`src/main.py` together with the data model of `src/models.py`.  The relational
store is modelled as lists of rows (in primary-key insertion order, which is
the order the backing store returns rows in when no explicit ordering is
requested); every mutating endpoint becomes a function from the store to
`Except LedgerError DB`.  Quantities and counters are `Int` (Python integers
are unbounded and may go negative); identifiers are `Nat`.
-/

set_option linter.unusedVariables false

/-- Row of the `departments` table (src/models.py, class Department); only the
fields read by the operations under verification are kept. -/
structure Department where
  id : Nat
  name : String
  employee_count : Int
deriving DecidableEq

/-- Row of the `employees` table (src/models.py, class Employee). -/
structure Employee where
  id : Nat
  full_name : String
  department_id : Option Nat
deriving DecidableEq

/-- Row of the `cartridges` table (src/models.py, class Cartridge). -/
structure Cartridge where
  id : Nat
  article : String
  model : String
  initial_quantity : Int
  total_quantity : Int
deriving DecidableEq

/-- Row of the `boxes` table (src/models.py, class Box). -/
structure Box where
  id : Nat
  warehouse_id : Nat
  box_number : String
  capacity : Int
  current_count : Int
deriving DecidableEq

/-- Row of the `cartridge_locations` table (src/models.py, class
CartridgeLocation): a (cartridge, box) quantity bucket with a status. -/
structure CartridgeLocation where
  id : Nat
  cartridge_id : Nat
  box_id : Option Nat
  employee_id : Option Nat
  status : String
  quantity : Int
deriving DecidableEq

/-- Row of the `service_notes` table (src/models.py, class ServiceNote).
`year` models the calendar year of `created_date`, which is all the code ever
extracts from that timestamp. -/
structure ServiceNote where
  id : Nat
  note_number : String
  year : Nat
  author_id : Option Nat
  recipient_id : Nat
  cartridge_id : Nat
  quantity : Int
  box_id : Option Nat
  reason : String
  comment : Option String
  status : String
deriving DecidableEq

/-- Row of the `cartridge_movements` table (src/models.py, class
CartridgeMovement). -/
structure CartridgeMovement where
  cartridge_id : Nat
  from_location : String
  to_location : String
  service_note_id : Option Nat
deriving DecidableEq

/-- The relational store.  The `next…Id` counters model the autoincrement
primary-key sequences of the respective tables. -/
structure DB where
  departments : List Department
  employees : List Employee
  cartridges : List Cartridge
  boxes : List Box
  locations : List CartridgeLocation
  notes : List ServiceNote
  movements : List CartridgeMovement
  nextCartId : Nat
  nextBoxId : Nat
  nextLocId : Nat
  nextNoteId : Nat
deriving DecidableEq

/-- Error taxonomy of the ledger endpoints (spec §7); each constructor carries
the human-readable message the endpoint redirects with. -/
inductive LedgerError where
  | notFound : String → LedgerError
  | insufficientStock : String → LedgerError
  | boxFull : String → LedgerError
  | referentialConflict : String → LedgerError
deriving DecidableEq

deriving instance DecidableEq for Except

/-- Python's `str.zfill`: left-pad a decimal string with zeros to `width`. -/
def zfill (width : Nat) (s : String) : String :=
  String.mk (List.replicate (width - s.length) '0') ++ s

/-- src/main.py `generate_note_number`: counts the notes created in the given
calendar year and formats the next sequence number. -/
def generate_note_number (db : DB) (year : Nat) : String :=
  let count := (db.notes.filter (fun n => n.year == year)).length
  "КАРТ-" ++ toString year ++ "-" ++ zfill 3 (toString (count + 1))

/-- `db.query(Cartridge).filter(Cartridge.id == cid).first()`. -/
def findCartridge (db : DB) (cid : Nat) : Option Cartridge :=
  db.cartridges.find? (fun cr => cr.id == cid)

/-- `db.query(Box).filter(Box.id == bid).first()`. -/
def findBox (db : DB) (bid : Nat) : Option Box :=
  db.boxes.find? (fun bx => bx.id == bid)

/-- `db.query(Employee).filter(Employee.id == eid).first()`. -/
def findEmployee (db : DB) (eid : Nat) : Option Employee :=
  db.employees.find? (fun e => e.id == eid)

/-- `db.query(ServiceNote).filter(ServiceNote.id == nid).first()`. -/
def findNote (db : DB) (nid : Nat) : Option ServiceNote :=
  db.notes.find? (fun n => n.id == nid)

/-- `db.query(Department).filter(Department.id == did).first()`. -/
def findDepartment (db : DB) (did : Nat) : Option Department :=
  db.departments.find? (fun d => d.id == did)

/-- Filter of the location query in `create_service_note` (src/main.py lines
521-525): same cartridge, status "на складе" (in stock), quantity at least the
requested amount. -/
def issueElig (cartridge_id : Nat) (quantity : Int) (l : CartridgeLocation) : Bool :=
  l.cartridge_id == cartridge_id && l.status == "на складе" &&
    decide (quantity ≤ l.quantity)

/-- Running maximum of the location quantity; keeps the earlier row on ties,
so the result is one of the rows with the largest quantity. -/
def bestOfAux (best : CartridgeLocation) : List CartridgeLocation → CartridgeLocation
  | [] => best
  | l :: ls => bestOfAux (if best.quantity < l.quantity then l else best) ls

/-- The location query of `create_service_note`: eligible rows ordered by
quantity descending, first row — i.e. an eligible row of maximal quantity. -/
def pickIssueLoc (locs : List CartridgeLocation) (cartridge_id : Nat)
    (quantity : Int) : Option CartridgeLocation :=
  match locs.filter (issueElig cartridge_id quantity) with
  | [] => none
  | l :: ls => some (bestOfAux l ls)

/-- src/main.py `create_service_note` (POST /service-notes): greedy single-box
issue of `quantity` units of a cartridge to an employee. `year` is the calendar
year of the wall clock at the time of the call. -/
def create_service_note (db : DB) (year recipient_id cartridge_id : Nat)
    (quantity : Int) (reason : String) (comment : Option String) :
    Except LedgerError DB :=
  match pickIssueLoc db.locations cartridge_id quantity with
  | none => .error (.insufficientStock "Недостаточно картриджей на складе")
  | some location =>
    match findCartridge db cartridge_id with
    | none => .error (.insufficientStock "Недостаточно картриджей")
    | some cartridge =>
      if cartridge.total_quantity < quantity then
        .error (.insufficientStock "Недостаточно картриджей")
      else
        let note_number := generate_note_number db year
        let box_id := location.box_id
        let note : ServiceNote :=
          { id := db.nextNoteId, note_number := note_number, year := year,
            author_id := none, recipient_id := recipient_id,
            cartridge_id := cartridge_id, quantity := quantity,
            box_id := box_id, reason := reason, comment := comment,
            status := "выдано" }
        let locations := db.locations.map (fun l =>
          if l.id == location.id then
            { l with quantity := l.quantity - quantity,
                     status := if l.quantity - quantity ≤ 0 then "выдано" else l.status }
          else l)
        let cartridges := db.cartridges.map (fun cr =>
          if cr.id == cartridge_id then
            { cr with total_quantity := max 0 (cr.total_quantity - quantity) }
          else cr)
        let box? := match box_id with
          | none => none
          | some b => findBox db b
        let boxes := match box_id with
          | none => db.boxes
          | some b => db.boxes.map (fun bx =>
              if bx.id == b then
                { bx with current_count := max 0 (bx.current_count - quantity) }
              else bx)
        let movement : CartridgeMovement :=
          { cartridge_id := cartridge_id,
            from_location := match box? with
              | some bx => "Ящик " ++ bx.box_number
              | none => "Склад",
            to_location := match findEmployee db recipient_id with
              | some e => "Сотрудник: " ++ e.full_name
              | none => "Выдано",
            service_note_id := some db.nextNoteId }
        .ok { db with
          notes := db.notes ++ [note],
          locations := locations,
          cartridges := cartridges,
          boxes := boxes,
          movements := db.movements ++ [movement],
          nextNoteId := db.nextNoteId + 1 }

/-- Filter of the location query in `return_cartridge` (src/main.py lines
582-585): same cartridge and box as the note, with no status condition. -/
def returnLocPred (note : ServiceNote) (l : CartridgeLocation) : Bool :=
  l.cartridge_id == note.cartridge_id && l.box_id == note.box_id

/-- The transaction body of src/main.py `return_cartridge` once the note has
been fetched: marks the note returned and credits the stock back.  There is
no guard on the note's current status, and `cartridge.total_quantity` is left
untouched. -/
def apply_return (db : DB) (note : ServiceNote) : DB :=
    let notes := db.notes.map (fun n =>
      if n.id == note.id then { n with status := "возврат" } else n)
    let found := db.locations.find? (returnLocPred note)
    let locations := match found with
      | some l0 => db.locations.map (fun l =>
          if l.id == l0.id then
            { l with quantity := l.quantity + note.quantity, status := "на складе" }
          else l)
      | none => db.locations ++
          [{ id := db.nextLocId, cartridge_id := note.cartridge_id,
             box_id := note.box_id, employee_id := none,
             status := "на складе", quantity := note.quantity }]
    let nextLocId := match found with
      | some _ => db.nextLocId
      | none => db.nextLocId + 1
    let box? := match note.box_id with
      | none => none
      | some b => findBox db b
    let boxes := match note.box_id with
      | none => db.boxes
      | some b => db.boxes.map (fun bx =>
          if bx.id == b then
            { bx with current_count := bx.current_count + note.quantity }
          else bx)
    let movement : CartridgeMovement :=
      { cartridge_id := note.cartridge_id,
        from_location := "В использовании",
        to_location := match box? with
          | some bx => "Ящик " ++ bx.box_number
          | none => "Склад",
        service_note_id := some note.id }
    { db with
      notes := notes,
      locations := locations,
      boxes := boxes,
      movements := db.movements ++ [movement],
      nextLocId := nextLocId }

/-- src/main.py `return_cartridge` (POST /service-notes/{note_id}/return):
looks the note up and runs the return transaction body on it.  The body keys
the note update on the found note's own id, which equals the requested
`note_id` by the lookup's filter. -/
def return_cartridge (db : DB) (note_id : Nat) : Except LedgerError DB :=
  match findNote db note_id with
  | none => .error (.notFound "Служебка не найдена")
  | some note => .ok (apply_return db note)

/-- The return body never touches the cartridge table: `total_quantity` is
not restored. -/
theorem apply_return_cartridges (db : DB) (note : ServiceNote) :
    (apply_return db note).cartridges = db.cartridges := rfl

/-- Return body, location effect when a (cartridge, box) row matches. -/
theorem apply_return_locations_found (db : DB) (note : ServiceNote)
    (l0 : CartridgeLocation)
    (h : db.locations.find? (returnLocPred note) = some l0) :
    (apply_return db note).locations = db.locations.map (fun l =>
      if l.id == l0.id then
        { l with quantity := l.quantity + note.quantity, status := "на складе" }
      else l) := by
  unfold apply_return
  simp only [h]

/-- Return body, box effect when the note records a source box. -/
theorem apply_return_boxes_some (db : DB) (note : ServiceNote) (b : Nat)
    (h : note.box_id = some b) :
    (apply_return db note).boxes = db.boxes.map (fun bx =>
      if bx.id == b then
        { bx with current_count := bx.current_count + note.quantity }
      else bx) := by
  unfold apply_return
  simp only [h]

/-- Return body, box effect when the note records no source box. -/
theorem apply_return_boxes_none (db : DB) (note : ServiceNote)
    (h : note.box_id = none) :
    (apply_return db note).boxes = db.boxes := by
  unfold apply_return
  simp only [h]

/-- `sum(loc.quantity for loc in cartridge.locations if loc.quantity)`
(src/main.py line 628): quantity already distributed into boxes, over rows of
every status.  Skipping falsy (zero) quantities does not change the sum. -/
def distributedQty (db : DB) (cartridge_id : Nat) : Int :=
  ((db.locations.filter (fun l => l.cartridge_id == cartridge_id)).map
    (fun l => l.quantity)).sum

/-- The availability error message of `add_cartridge_to_stock`. -/
def stockAvailMsg (quantity available total distributed : Int) : String :=
  "Нельзя добавить " ++ toString quantity ++ " шт.: доступно только " ++
    toString available ++ " шт. (всего " ++ toString total ++
    ", распределено " ++ toString distributed ++ ")"

/-- The box-capacity error message of `add_cartridge_to_stock`. -/
def boxFullMsg (quantity free : Int) (box : Box) : String :=
  "Нельзя добавить " ++ toString quantity ++ " шт. в ящик " ++ box.box_number ++
    ": свободно только " ++ toString free ++ " мест (вместимость " ++
    toString box.capacity ++ ", занято " ++ toString box.current_count ++ ")"

/-- Filter of the merge-target query in `add_cartridge_to_stock` (src/main.py
lines 644-648): same cartridge and box, in stock. -/
def recvLocPred (cartridge_id box_id : Nat) (l : CartridgeLocation) : Bool :=
  l.cartridge_id == cartridge_id && l.box_id == some box_id &&
    l.status == "на складе"

/-- src/main.py `add_cartridge_to_stock` (POST /locations): the Receive
operation — move undistributed stock of a cartridge into a box. -/
def add_cartridge_to_stock (db : DB) (cartridge_id box_id : Nat)
    (quantity : Int) : Except LedgerError DB :=
  match findCartridge db cartridge_id with
  | none => .error (.notFound "Картридж не найден")
  | some cartridge =>
    let current_distributed := distributedQty db cartridge_id
    let available := cartridge.total_quantity - current_distributed
    if available < quantity then
      .error (.insufficientStock
        (stockAvailMsg quantity available cartridge.total_quantity current_distributed))
    else
      match findBox db box_id with
      | none => .error (.notFound "Ящик не найден")
      | some box =>
        let free_space := box.capacity - box.current_count
        if free_space < quantity then
          .error (.boxFull (boxFullMsg quantity free_space box))
        else
          let found := db.locations.find? (recvLocPred cartridge_id box_id)
          let locations := match found with
            | some l0 => db.locations.map (fun l =>
                if l.id == l0.id then { l with quantity := l.quantity + quantity } else l)
            | none => db.locations ++
                [{ id := db.nextLocId, cartridge_id := cartridge_id,
                   box_id := some box_id, employee_id := none,
                   status := "на складе", quantity := quantity }]
          let nextLocId := match found with
            | some _ => db.nextLocId
            | none => db.nextLocId + 1
          let boxes := db.boxes.map (fun bx =>
            if bx.id == box_id then
              { bx with current_count := bx.current_count + quantity }
            else bx)
          let movement : CartridgeMovement :=
            { cartridge_id := cartridge_id,
              from_location := "Поступление",
              to_location := "Ящик " ++ box.box_number,
              service_note_id := none }
          .ok { db with
            locations := locations,
            boxes := boxes,
            movements := db.movements ++ [movement],
            nextLocId := nextLocId }

/-- src/main.py `remove_one_from_location` (POST /locations/{id}/remove-one):
the WithdrawOne operation — move one unit back to the undistributed pool,
deleting the row when its quantity would drop to zero. -/
def remove_one_from_location (db : DB) (location_id : Nat) :
    Except LedgerError DB :=
  match db.locations.find? (fun l => l.id == location_id) with
  | none => .error (.notFound "Запись не найдена")
  | some location =>
    let box? := match location.box_id with
      | none => none
      | some b => findBox db b
    let locations :=
      if location.quantity ≤ 1 then
        db.locations.filter (fun l => !(l.id == location_id))
      else
        db.locations.map (fun l =>
          if l.id == location_id then { l with quantity := l.quantity - 1 } else l)
    let boxes := match box? with
      | some bx =>
        if 0 < bx.current_count then
          db.boxes.map (fun b =>
            if b.id == bx.id then { b with current_count := b.current_count - 1 } else b)
        else db.boxes
      | none => db.boxes
    let movement : CartridgeMovement :=
      { cartridge_id := location.cartridge_id,
        from_location := match box? with
          | some bx => "Ящик " ++ bx.box_number
          | none => "Склад",
        to_location := "Нераспределённые",
        service_note_id := none }
    .ok { db with
      locations := locations,
      boxes := boxes,
      movements := db.movements ++ [movement] }

/-- The blocking message of `delete_department`, naming the employee count. -/
def deptBlockedMsg (employees_count : Nat) : String :=
  "Нельзя удалить отдел: в нём " ++ toString employees_count ++
    " сотрудник(ов). Сначала переведите их в другой отдел."

/-- src/main.py `delete_department` (POST /departments/{id}/delete): the
referential check runs and returns before any row is touched. -/
def delete_department (db : DB) (department_id : Nat) : Except LedgerError DB :=
  match findDepartment db department_id with
  | none => .error (.notFound "Отдел не найден")
  | some _ =>
    let employees_count :=
      (db.employees.filter (fun e => e.department_id == some department_id)).length
    if 0 < employees_count then
      .error (.referentialConflict (deptBlockedMsg employees_count))
    else
      .ok { db with
        departments := db.departments.filter (fun d => !(d.id == department_id)) }

/-- src/main.py `create_cartridge` (POST /cartridges): a new cartridge starts
with `total_quantity = initial_quantity`. -/
def create_cartridge (db : DB) (article model : String)
    (initial_quantity : Int) : DB :=
  { db with
    cartridges := db.cartridges ++
      [{ id := db.nextCartId, article := article, model := model,
         initial_quantity := initial_quantity,
         total_quantity := initial_quantity }],
    nextCartId := db.nextCartId + 1 }

/-- src/main.py `create_box` (POST /boxes): a new box starts empty. -/
def create_box (db : DB) (warehouse_id : Nat) (box_number : String)
    (capacity : Int) : DB :=
  { db with
    boxes := db.boxes ++
      [{ id := db.nextBoxId, warehouse_id := warehouse_id,
         box_number := box_number, capacity := capacity, current_count := 0 }],
    nextBoxId := db.nextBoxId + 1 }

/-- The store right after the schema is created: no rows at all. -/
def emptyDB : DB :=
  { departments := [], employees := [], cartridges := [], boxes := [],
    locations := [], notes := [], movements := [],
    nextCartId := 1, nextBoxId := 1, nextLocId := 1, nextNoteId := 1 }

/-- The scenario store of spec §8: one cartridge (`total_quantity` 10), one
box A (capacity 20, occupancy 10), one in-stock location row of quantity 10,
and one employee to issue to. -/
def dbScenario : DB :=
  { departments := [],
    employees := [{ id := 5, full_name := "Иванов", department_id := none }],
    cartridges := [{ id := 1, article := "CB435A", model := "HP LJ P1005",
                     initial_quantity := 10, total_quantity := 10 }],
    boxes := [{ id := 1, warehouse_id := 1, box_number := "A",
                capacity := 20, current_count := 10 }],
    locations := [{ id := 1, cartridge_id := 1, box_id := some 1,
                    employee_id := none, status := "на складе", quantity := 10 }],
    notes := [], movements := [],
    nextCartId := 2, nextBoxId := 2, nextLocId := 2, nextNoteId := 1 }

/-- `find?` commutes with mapping a function that does not change the value of
the predicate (e.g. an update keyed on a field the predicate ignores). -/
theorem find?_map_pres {α : Type} (p : α → Bool) (f : α → α)
    (h : ∀ x, p (f x) = p x) :
    ∀ l : List α, (l.map f).find? p = (l.find? p).map f
  | [] => rfl
  | a :: t => by
    rw [List.map_cons]
    by_cases hp : p a = true
    · rw [List.find?_cons_of_pos _ (show p (f a) from by rw [h a]; exact hp),
        List.find?_cons_of_pos _ hp, Option.map_some']
    · rw [List.find?_cons_of_neg _ (show ¬p (f a) from fun hc => hp (by rwa [h a] at hc)),
        List.find?_cons_of_neg _ hp]
      exact find?_map_pres p f h t

/-- If `x` is the only member satisfying `p`, then `find?` returns it. -/
theorem find?_eq_some_of_unique {α : Type} {p : α → Bool} :
    ∀ {l : List α} {x : α}, x ∈ l → p x = true →
      (∀ y ∈ l, p y = true → y = x) → l.find? p = some x := by
  intro l
  induction l with
  | nil => intro x hx _ _; cases hx
  | cons a t ih =>
    intro x hx hpx huniq
    by_cases hpa : p a = true
    · rw [List.find?_cons_of_pos _ hpa, huniq a (List.mem_cons_self a t) hpa]
    · rw [List.find?_cons_of_neg _ (by simpa using hpa)]
      have hx' : x ∈ t := by
        rcases List.mem_cons.mp hx with rfl | hx'
        · exact absurd hpx hpa
        · exact hx'
      exact ih hx' hpx (fun y hy hpy => huniq y (List.mem_cons_of_mem _ hy) hpy)

/-- The running maximum is the seed or one of the list elements. -/
theorem bestOfAux_mem (b : CartridgeLocation) (ls : List CartridgeLocation) :
    bestOfAux b ls = b ∨ bestOfAux b ls ∈ ls := by
  induction ls generalizing b with
  | nil => left; rfl
  | cons l t ih =>
    simp only [bestOfAux]
    rcases ih (if b.quantity < l.quantity then l else b) with h | h
    · by_cases hb : b.quantity < l.quantity
      · right
        rw [h, if_pos hb]
        exact List.mem_cons_self l t
      · left
        rw [h, if_neg hb]
    · right; exact List.mem_cons_of_mem _ h

/-- The running maximum dominates the seed and every list element. -/
theorem bestOfAux_ge (b : CartridgeLocation) (ls : List CartridgeLocation) :
    b.quantity ≤ (bestOfAux b ls).quantity ∧
      ∀ x ∈ ls, x.quantity ≤ (bestOfAux b ls).quantity := by
  induction ls generalizing b with
  | nil => exact ⟨le_refl _, fun x hx => absurd hx (List.not_mem_nil x)⟩
  | cons l t ih =>
    simp only [bestOfAux]
    obtain ⟨h1, h2⟩ := ih (if b.quantity < l.quantity then l else b)
    have hseed : b.quantity ≤ (if b.quantity < l.quantity then l else b).quantity := by
      by_cases hb : b.quantity < l.quantity
      · rw [if_pos hb]; exact le_of_lt hb
      · rw [if_neg hb]
    have hhead : l.quantity ≤ (if b.quantity < l.quantity then l else b).quantity := by
      by_cases hb : b.quantity < l.quantity
      · rw [if_pos hb]
      · rw [if_neg hb]; exact le_of_not_lt hb
    refine ⟨le_trans hseed h1, ?_⟩
    intro x hx
    rcases List.mem_cons.mp hx with rfl | hx'
    · exact le_trans hhead h1
    · exact h2 x hx'

/-- A location selected by the issue query is an eligible row of the store. -/
theorem pickIssueLoc_mem {locs : List CartridgeLocation} {c : Nat} {q : Int}
    {loc : CartridgeLocation} (h : pickIssueLoc locs c q = some loc) :
    loc ∈ locs ∧ issueElig c q loc = true := by
  unfold pickIssueLoc at h
  cases hf : locs.filter (issueElig c q) with
  | nil => rw [hf] at h; cases h
  | cons a t =>
    rw [hf] at h
    injection h with h
    subst h
    have hmem : bestOfAux a t ∈ a :: t := by
      rcases bestOfAux_mem a t with h' | h'
      · rw [h']; exact List.mem_cons_self a t
      · exact List.mem_cons_of_mem _ h'
    rw [← hf] at hmem
    exact ⟨List.mem_of_mem_filter hmem, List.of_mem_filter hmem⟩

/-- A location selected by the issue query has the largest quantity among the
eligible rows (ties broken arbitrarily, as by the unconstrained SQL ordering). -/
theorem pickIssueLoc_max {locs : List CartridgeLocation} {c : Nat} {q : Int}
    {loc : CartridgeLocation} (h : pickIssueLoc locs c q = some loc) :
    ∀ x ∈ locs, issueElig c q x = true → x.quantity ≤ loc.quantity := by
  unfold pickIssueLoc at h
  cases hf : locs.filter (issueElig c q) with
  | nil => rw [hf] at h; cases h
  | cons a t =>
    rw [hf] at h
    injection h with h
    subst h
    intro x hx hex
    have hxf : x ∈ a :: t := by
      rw [← hf]
      exact List.mem_filter.mpr ⟨hx, hex⟩
    rcases List.mem_cons.mp hxf with rfl | hx'
    · exact (bestOfAux_ge x t).1
    · exact (bestOfAux_ge a t).2 x hx'

/-- When no row is eligible the issue query returns nothing. -/
theorem pickIssueLoc_eq_none {locs : List CartridgeLocation} {c : Nat} {q : Int}
    (h : ∀ x ∈ locs, issueElig c q x = false) : pickIssueLoc locs c q = none := by
  unfold pickIssueLoc
  rw [List.filter_eq_nil_iff.mpr (fun a ha => by simp [h a ha])]

/-- Unfolding of the eligibility predicate of the issue query. -/
theorem issueElig_iff {c : Nat} {q : Int} {l : CartridgeLocation} :
    issueElig c q l = true ↔
      l.cartridge_id = c ∧ l.status = "на складе" ∧ q ≤ l.quantity := by
  simp [issueElig, and_assoc]

/-- C1: issuing 4 of 10 from box A (capacity 20) leaves the location row at 6,
box A's `current_count` at 6 and the cartridge's `total_quantity` at 6, and
creates exactly one service note with status issued ("выдано") and exactly one
movement from box A to the employee. -/
theorem issue_scenario_c1 :
    create_service_note dbScenario 2025 5 1 4 "ремонт" none = Except.ok
      { dbScenario with
        notes := [{ id := 1, note_number := "КАРТ-2025-001", year := 2025,
                    author_id := none, recipient_id := 5, cartridge_id := 1,
                    quantity := 4, box_id := some 1, reason := "ремонт",
                    comment := none, status := "выдано" }],
        locations := [{ id := 1, cartridge_id := 1, box_id := some 1,
                        employee_id := none, status := "на складе", quantity := 6 }],
        cartridges := [{ id := 1, article := "CB435A", model := "HP LJ P1005",
                         initial_quantity := 10, total_quantity := 6 }],
        boxes := [{ id := 1, warehouse_id := 1, box_number := "A",
                    capacity := 20, current_count := 6 }],
        movements := [{ cartridge_id := 1, from_location := "Ящик A",
                        to_location := "Сотрудник: Иванов",
                        service_note_id := some 1 }],
        nextNoteId := 2 } := by
  decide

/-- The scenario store with everything in one box and the full quantity about
to be issued: cartridge total 4, box occupancy 4, one in-stock row of 4. -/
def dbIssueAll : DB :=
  { dbScenario with
    cartridges := [{ id := 1, article := "CB435A", model := "HP LJ P1005",
                     initial_quantity := 4, total_quantity := 4 }],
    boxes := [{ id := 1, warehouse_id := 1, box_number := "A",
                capacity := 10, current_count := 4 }],
    locations := [{ id := 1, cartridge_id := 1, box_id := some 1,
                    employee_id := none, status := "на складе", quantity := 4 }] }

/-- C3 counterexample: Issue of the full quantity of a location row keeps the
row in the store at quantity 0 (its status is flipped to issued instead of the
row being deleted), so a row with `quantity ≤ 0` does persist after a ledger
operation. -/
theorem issue_keeps_zero_quantity_row :
    ∃ db1, create_service_note dbIssueAll 2025 5 1 4 "ремонт" none = Except.ok db1 ∧
      ∃ l ∈ db1.locations, l.quantity ≤ 0 := by
  refine ⟨_, rfl, ?_⟩
  decide

/-- C3 amended: WithdrawOne alone upholds the no-nonpositive-row rule — it
deletes the affected row when its quantity would drop to zero, so from a store
whose rows all have positive quantity it never leaves a row with
`quantity ≤ 0` (Issue, by contrast, keeps a zero-quantity row, flipping its
status to issued). -/
theorem withdraw_one_no_nonpositive_rows
    (db db' : DB) (location_id : Nat)
    (hnodup : (db.locations.map CartridgeLocation.id).Nodup)
    (hpos : ∀ l ∈ db.locations, 1 ≤ l.quantity)
    (h : remove_one_from_location db location_id = Except.ok db') :
    ∀ l ∈ db'.locations, 1 ≤ l.quantity := by
  unfold remove_one_from_location at h
  cases hf : db.locations.find? (fun l => l.id == location_id) with
  | none => rw [hf] at h; cases h
  | some location =>
    rw [hf] at h
    injection h with h
    have hlocmem : location ∈ db.locations := List.mem_of_find?_eq_some hf
    have hlocid : location.id = location_id := by
      have := List.find?_some hf
      simpa using this
    have hloc : db'.locations =
        (if location.quantity ≤ 1 then
          db.locations.filter (fun l => !(l.id == location_id))
        else
          db.locations.map (fun l =>
            if l.id == location_id then { l with quantity := l.quantity - 1 } else l)) := by
      rw [← h]
    intro l hl
    rw [hloc] at hl
    by_cases hq : location.quantity ≤ 1
    · rw [if_pos hq] at hl
      exact hpos l (List.mem_of_mem_filter hl)
    · rw [if_neg hq] at hl
      obtain ⟨x, hx, hfx⟩ := List.mem_map.mp hl
      by_cases hid : x.id = location_id
      · have hxl : x = location :=
          List.inj_on_of_nodup_map hnodup hx hlocmem (by rw [hid, hlocid])
        rw [if_pos (by simpa using hid)] at hfx
        subst hfx
        have : 2 ≤ location.quantity := by omega
        simp only [hxl]
        omega
      · rw [if_neg (by simpa using hid)] at hfx
        subst hfx
        exact hpos x hx

/-- Store with a single in-stock row of quantity 1, to exercise the deletion
branch of WithdrawOne. -/
def dbWithdraw : DB :=
  { dbScenario with
    locations := [{ id := 1, cartridge_id := 1, box_id := some 1,
                    employee_id := none, status := "на складе", quantity := 1 }] }

/-- Witness for the amended C3 theorem at a concrete store: withdrawing the
last unit deletes the row, leaving no row with quantity below 1. -/
theorem withdraw_one_no_nonpositive_rows_witness :
    ∃ db', remove_one_from_location dbWithdraw 1 = Except.ok db' ∧
      ∀ l ∈ db'.locations, 1 ≤ l.quantity := by
  refine ⟨_, rfl, withdraw_one_no_nonpositive_rows dbWithdraw _ 1 (by decide) (by decide) rfl⟩

/-- Store where the requested quantity exceeds both the undistributed stock
(1 available) and the box's free capacity (1 free). -/
def dbTightStock : DB :=
  { emptyDB with
    cartridges := [{ id := 1, article := "Q2612A", model := "HP LJ 1010",
                     initial_quantity := 1, total_quantity := 1 }],
    boxes := [{ id := 1, warehouse_id := 1, box_number := "B",
                capacity := 1, current_count := 0 }],
    nextCartId := 2, nextBoxId := 2 }

/-- C5 counterexample: a Receive of 5 into a box with free capacity 1 does
exceed the free capacity, yet it fails with the InsufficientStock error (the
availability check fires first at line 631), not with BoxFull. -/
theorem receive_overflow_not_boxfull :
    (∃ m, add_cartridge_to_stock dbTightStock 1 1 5
        = Except.error (LedgerError.insufficientStock m)) ∧
      ∀ m, add_cartridge_to_stock dbTightStock 1 1 5
        ≠ Except.error (LedgerError.boxFull m) := by
  constructor
  · exact ⟨_, rfl⟩
  · intro m h
    rw [show add_cartridge_to_stock dbTightStock 1 1 5 =
        Except.error (LedgerError.insufficientStock (stockAvailMsg 5 1 1 0)) from rfl] at h
    injection h with h
    cases h

/-- C5 amended: a Receive whose quantity exceeds the box's free capacity
always fails before any write — with BoxFull whenever the quantity is within
the available undistributed stock, and with InsufficientStock otherwise (the
availability check precedes the capacity check).  In this embedding a failing
operation returns only the error, never a modified store, mirroring the
check-then-act structure of the code: every check precedes every write. -/
theorem receive_over_capacity_fails
    (db : DB) (cartridge_id box_id : Nat) (quantity : Int)
    (cartridge : Cartridge) (box : Box)
    (hc : findCartridge db cartridge_id = some cartridge)
    (hb : findBox db box_id = some box)
    (hover : box.capacity - box.current_count < quantity) :
    ∃ e, add_cartridge_to_stock db cartridge_id box_id quantity = Except.error e ∧
      (quantity ≤ cartridge.total_quantity - distributedQty db cartridge_id →
        e = LedgerError.boxFull
          (boxFullMsg quantity (box.capacity - box.current_count) box)) := by
  simp only [add_cartridge_to_stock, hc, hb]
  by_cases hav : cartridge.total_quantity - distributedQty db cartridge_id < quantity
  · rw [if_pos hav]
    exact ⟨_, rfl, fun hle => absurd hav (not_lt.mpr hle)⟩
  · rw [if_neg hav, if_pos hover]
    exact ⟨_, rfl, fun _ => rfl⟩

/-- Store with ample undistributed stock (100) but a box with free capacity 1,
so an oversized Receive reaches the capacity check. -/
def dbSmallBox : DB :=
  { emptyDB with
    cartridges := [{ id := 1, article := "Q2612A", model := "HP LJ 1010",
                     initial_quantity := 100, total_quantity := 100 }],
    boxes := [{ id := 1, warehouse_id := 1, box_number := "B",
                capacity := 1, current_count := 0 }],
    nextCartId := 2, nextBoxId := 2 }

/-- Witness for the amended C5 theorem at a concrete store: quantity 5 within
available stock but over the free capacity fails with BoxFull. -/
theorem receive_over_capacity_fails_witness :
    ∃ e, add_cartridge_to_stock dbSmallBox 1 1 5 = Except.error e ∧
      ((5 : Int) ≤ (100 : Int) - distributedQty dbSmallBox 1 →
        e = LedgerError.boxFull (boxFullMsg 5 1
          { id := 1, warehouse_id := 1, box_number := "B", capacity := 1, current_count := 0 })) := by
  exact receive_over_capacity_fails dbSmallBox 1 1 5
    { id := 1, article := "Q2612A", model := "HP LJ 1010",
      initial_quantity := 100, total_quantity := 100 }
    { id := 1, warehouse_id := 1, box_number := "B", capacity := 1, current_count := 0 }
    rfl rfl (by decide)

/-- C8: deleting a department that still has linked employees fails with a
referential-conflict error whose message names the number of blocking
employees; the operation returns before touching any row, so the store is
unchanged on failure. -/
theorem delete_department_blocked
    (db : DB) (department_id : Nat) (dept : Department)
    (hd : findDepartment db department_id = some dept)
    (hemp : 0 < (db.employees.filter
      (fun e => e.department_id == some department_id)).length) :
    delete_department db department_id = Except.error
      (LedgerError.referentialConflict (deptBlockedMsg
        (db.employees.filter (fun e => e.department_id == some department_id)).length)) := by
  simp only [delete_department, hd]
  rw [if_pos hemp]

/-- Store with one department and one employee linked to it. -/
def dbDept : DB :=
  { emptyDB with
    departments := [{ id := 1, name := "ИТ", employee_count := 1 }],
    employees := [{ id := 1, full_name := "Петров", department_id := some 1 }] }

/-- Witness for C8 at a concrete store: one linked employee blocks the delete
and the message carries the count 1. -/
theorem delete_department_blocked_witness :
    delete_department dbDept 1 = Except.error
      (LedgerError.referentialConflict (deptBlockedMsg 1)) := by
  exact delete_department_blocked dbDept 1
    { id := 1, name := "ИТ", employee_count := 1 } rfl (by decide)

/-- Reachable starting store for the capacity-overflow trace: one cartridge
with 10 units total and one empty box of capacity 5, created through the
catalog endpoints. -/
def dbT0 : DB := create_box (create_cartridge emptyDB "CF280A" "HP LJ M401" 10) 1 "Б1" 5

/-- C10: along a reachable trace — fill the box to capacity, issue everything,
refill to capacity, then Return the note — the Return increments
`current_count` by the note quantity without any capacity check, leaving the
box at occupancy 10 with capacity 5; before the Return every box satisfied
`0 ≤ current_count ≤ capacity`. -/
theorem return_overfills_box :
    ∃ db1 db2 db3 db4,
      add_cartridge_to_stock dbT0 1 1 5 = Except.ok db1 ∧
      create_service_note db1 2025 1 1 5 "ремонт" none = Except.ok db2 ∧
      add_cartridge_to_stock db2 1 1 5 = Except.ok db3 ∧
      return_cartridge db3 1 = Except.ok db4 ∧
      (∀ b ∈ db3.boxes, 0 ≤ b.current_count ∧ b.current_count ≤ b.capacity) ∧
      ∃ b ∈ db4.boxes, b.capacity < b.current_count := by
  refine ⟨_, _, _, _, rfl, rfl, rfl, rfl, ?_, ?_⟩ <;> decide

/-- Updating box rows in a way that preserves the primary key commutes with
the id-keyed box lookup. -/
theorem findBox_map_update (boxes : List Box) (bid : Nat) (f : Box → Box)
    (hf : ∀ bx, (f bx).id = bx.id) :
    (boxes.map f).find? (fun bx => bx.id == bid) =
      (boxes.find? (fun bx => bx.id == bid)).map f :=
  find?_map_pres _ f (fun x => by rw [hf x]) boxes

/-- C4: a successful Issue appends exactly one note whose number is
`КАРТ-<year>-<seq>` with `seq` the count of notes already created in that
calendar year plus one, zero-padded to 3 digits; the count of notes of the
creation year grows by one and the count of every other year is untouched —
so three same-year creations from an empty year yield 001, 002, 003 no matter
how they interleave with creations of other years. -/
theorem note_number_sequencing
    (db db1 : DB) (year recipient_id cartridge_id : Nat) (quantity : Int)
    (reason : String)
    (h : create_service_note db year recipient_id cartridge_id quantity reason none
      = Except.ok db1) :
    ∃ note : ServiceNote,
      db1.notes = db.notes ++ [note] ∧ note.year = year ∧
      note.note_number =
        "КАРТ-" ++ toString year ++ "-" ++
          zfill 3 (toString ((db.notes.filter (fun n => n.year == year)).length + 1)) ∧
      (db1.notes.filter (fun n => n.year == year)).length
        = (db.notes.filter (fun n => n.year == year)).length + 1 ∧
      ∀ y, y ≠ year →
        (db1.notes.filter (fun n => n.year == y)).length
          = (db.notes.filter (fun n => n.year == y)).length := by
  unfold create_service_note at h
  cases hpick : pickIssueLoc db.locations cartridge_id quantity with
  | none => rw [hpick] at h; cases h
  | some location =>
    rw [hpick] at h
    cases hcr : findCartridge db cartridge_id with
    | none =>
      simp only [hcr] at h
      cases h
    | some cartridge =>
      simp only [hcr] at h
      by_cases hlt : cartridge.total_quantity < quantity
      · rw [if_pos hlt] at h; cases h
      · rw [if_neg hlt] at h
        injection h with h
        subst h
        refine ⟨_, rfl, rfl, rfl, ?_, ?_⟩
        · simp [List.filter_append]
        · intro y hy
          simp [List.filter_append, Ne.symm hy]

/-- Witness for C4 at the scenario store: the first note of 2025 is numbered
with the 3-digit sequence 001. -/
theorem note_number_sequencing_witness :
    ∃ db1, create_service_note dbScenario 2025 5 1 4 "ремонт" none = Except.ok db1 ∧
      ∃ note : ServiceNote, db1.notes = dbScenario.notes ++ [note] ∧
        note.note_number = "КАРТ-" ++ toString 2025 ++ "-" ++
          zfill 3 (toString ((dbScenario.notes.filter (fun n => n.year == 2025)).length + 1)) := by
  refine ⟨_, rfl, ?_⟩
  obtain ⟨note, h1, _, h3, _⟩ := note_number_sequencing dbScenario _ 2025 5 1 4 "ремонт" rfl
  exact ⟨note, h1, h3⟩

/-- C6: the Issue operation picks, among the in-stock rows of the requested
cartridge holding at least the requested quantity, a row with the largest
quantity (one box only, never splitting), and when no single in-stock row
holds at least the requested quantity it fails with the InsufficientStock
error. -/
theorem issue_greedy_selection
    (db : DB) (year recipient_id cartridge_id : Nat) (quantity : Int)
    (reason : String) :
    ((∀ l ∈ db.locations, l.cartridge_id = cartridge_id →
        l.status = "на складе" → l.quantity < quantity) →
      create_service_note db year recipient_id cartridge_id quantity reason none
        = Except.error (LedgerError.insufficientStock "Недостаточно картриджей на складе")) ∧
    ∀ db1, create_service_note db year recipient_id cartridge_id quantity reason none
        = Except.ok db1 →
      ∃ loc, pickIssueLoc db.locations cartridge_id quantity = some loc ∧
        loc ∈ db.locations ∧ loc.cartridge_id = cartridge_id ∧
        loc.status = "на складе" ∧ quantity ≤ loc.quantity ∧
        ∀ l ∈ db.locations, l.cartridge_id = cartridge_id →
          l.status = "на складе" → quantity ≤ l.quantity →
          l.quantity ≤ loc.quantity := by
  constructor
  · intro hnone
    have hp : pickIssueLoc db.locations cartridge_id quantity = none := by
      apply pickIssueLoc_eq_none
      intro x hx
      cases hel : issueElig cartridge_id quantity x
      · rfl
      · obtain ⟨hcid, hst, hq⟩ := issueElig_iff.mp hel
        exact absurd hq (not_le.mpr (hnone x hx hcid hst))
    simp only [create_service_note, hp]
  · intro db1 h
    unfold create_service_note at h
    cases hpick : pickIssueLoc db.locations cartridge_id quantity with
    | none => rw [hpick] at h; cases h
    | some loc =>
      obtain ⟨hmem, helig⟩ := pickIssueLoc_mem hpick
      obtain ⟨h1, h2, h3⟩ := issueElig_iff.mp helig
      refine ⟨loc, rfl, hmem, h1, h2, h3, ?_⟩
      intro l hl hc hs hq
      exact pickIssueLoc_max hpick l hl (issueElig_iff.mpr ⟨hc, hs, hq⟩)

/-- Witness for C6 at a concrete store with no eligible row: the Issue fails
with the InsufficientStock error. -/
theorem issue_greedy_selection_witness :
    create_service_note emptyDB 2025 1 1 3 "ремонт" none
      = Except.error (LedgerError.insufficientStock "Недостаточно картриджей на складе") :=
  (issue_greedy_selection emptyDB 2025 1 1 3 "ремонт").1 (by decide)

/-- C9: Receive never checks `quantity > 0`.  With any non-positive quantity
(and non-negative available stock and free capacity, so that neither rejection
fires) the operation succeeds: it adds the non-positive quantity to the
matching in-stock row or creates a new row holding it, adds it to the box's
`current_count`, and appends a movement row. -/
theorem receive_accepts_nonpositive_quantity
    (db : DB) (cartridge_id box_id : Nat) (quantity : Int)
    (cartridge : Cartridge) (box : Box)
    (hq : quantity ≤ 0)
    (hc : findCartridge db cartridge_id = some cartridge)
    (hb : findBox db box_id = some box)
    (hav : 0 ≤ cartridge.total_quantity - distributedQty db cartridge_id)
    (hfree : 0 ≤ box.capacity - box.current_count) :
    ∃ db1, add_cartridge_to_stock db cartridge_id box_id quantity = Except.ok db1 ∧
      findBox db1 box_id = some { box with current_count := box.current_count + quantity } ∧
      db1.movements = db.movements ++
        [{ cartridge_id := cartridge_id, from_location := "Поступление",
           to_location := "Ящик " ++ box.box_number, service_note_id := none }] ∧
      (∀ l0, db.locations.find? (recvLocPred cartridge_id box_id) = some l0 →
        db1.locations = db.locations.map (fun l =>
          if l.id == l0.id then { l with quantity := l.quantity + quantity } else l)) ∧
      (db.locations.find? (recvLocPred cartridge_id box_id) = none →
        db1.locations = db.locations ++
          [{ id := db.nextLocId, cartridge_id := cartridge_id, box_id := some box_id,
             employee_id := none, status := "на складе", quantity := quantity }]) := by
  simp only [add_cartridge_to_stock, hc, hb]
  rw [if_neg (by omega), if_neg (by omega)]
  have hboxid : (box.id == box_id) = true := by
    have hb' : db.boxes.find? (fun bx => bx.id == box_id) = some box := hb
    have h2 := List.find?_some hb'
    exact h2
  have hbox1 : (db.boxes.map (fun bx =>
      if bx.id == box_id then { bx with current_count := bx.current_count + quantity }
      else bx)).find? (fun bx => bx.id == box_id)
      = some { box with current_count := box.current_count + quantity } := by
    rw [findBox_map_update db.boxes box_id _ (fun bx => by
      by_cases hbx : (bx.id == box_id) = true
      · rw [if_pos hbx]
      · rw [if_neg hbx])]
    rw [show db.boxes.find? (fun bx => bx.id == box_id) = some box from hb,
      Option.map_some', if_pos hboxid]
  cases hf : db.locations.find? (recvLocPred cartridge_id box_id) with
  | some l0 =>
    refine ⟨_, rfl, hbox1, rfl, ?_, ?_⟩
    · intro l1 hl1
      injection hl1 with hl1
      subst hl1
      rfl
    · intro hcontra
      cases hcontra
  | none =>
    refine ⟨_, rfl, hbox1, rfl, ?_, ?_⟩
    · intro l1 hl1
      cases hl1
    · intro _
      rfl

/-- Witness for C9 at a concrete store: receiving quantity -3 into an empty
box of capacity 1 succeeds and drives `current_count` to -3. -/
theorem receive_accepts_nonpositive_quantity_witness :
    ∃ db1, add_cartridge_to_stock dbSmallBox 1 1 (-3) = Except.ok db1 ∧
      findBox db1 1 = some { id := 1, warehouse_id := 1, box_number := "B",
                             capacity := 1, current_count := -3 } := by
  obtain ⟨db1, h1, h2, _⟩ := receive_accepts_nonpositive_quantity dbSmallBox 1 1 (-3)
    { id := 1, article := "Q2612A", model := "HP LJ 1010",
      initial_quantity := 100, total_quantity := 100 }
    { id := 1, warehouse_id := 1, box_number := "B", capacity := 1, current_count := 0 }
    (by decide) rfl rfl (by decide) (by decide)
  refine ⟨db1, h1, ?_⟩
  rw [h2]
  decide

/-- One successful Return, characterized: with the note, its box and a
matching location row present, the operation succeeds, marks the note
returned, credits the row with the note quantity (flipping it in stock), and
adds the note quantity to the box occupancy. -/
theorem return_cartridge_spec
    (db : DB) (note_id bid : Nat) (note : ServiceNote)
    (loc : CartridgeLocation) (box : Box)
    (hn : findNote db note_id = some note)
    (hbid : note.box_id = some bid)
    (hb : findBox db bid = some box)
    (hloc : db.locations.find? (returnLocPred note) = some loc) :
    ∃ db1,
      return_cartridge db note_id = Except.ok db1 ∧
      findNote db1 note_id = some { note with status := "возврат" } ∧
      db1.locations.find? (returnLocPred note)
        = some { loc with
                 status := "на складе",
                 quantity := loc.quantity + note.quantity } ∧
      findBox db1 bid
        = some { box with current_count := box.current_count + note.quantity } := by
  have hnid : (note.id == note_id) = true := by
    have hn' : db.notes.find? (fun n => n.id == note_id) = some note := hn
    have h2 := List.find?_some hn'
    exact h2
  have hbba : (box.id == bid) = true := by
    have hb' : db.boxes.find? (fun bx => bx.id == bid) = some box := hb
    have h2 := List.find?_some hb'
    exact h2
  have e1 : return_cartridge db note_id = Except.ok
      { db with
        notes := db.notes.map (fun n =>
          if n.id == note.id then { n with status := "возврат" } else n),
        locations := db.locations.map (fun l =>
          if l.id == loc.id then
            { l with quantity := l.quantity + note.quantity, status := "на складе" }
          else l),
        boxes := db.boxes.map (fun bx =>
          if bx.id == bid then
            { bx with current_count := bx.current_count + note.quantity }
          else bx),
        movements := db.movements ++
          [{ cartridge_id := note.cartridge_id, from_location := "В использовании",
             to_location := "Ящик " ++ box.box_number, service_note_id := some note.id }],
        nextLocId := db.nextLocId } := by
    simp only [return_cartridge, apply_return, hn, hloc, hbid, hb]
  refine ⟨_, e1, ?_, ?_, ?_⟩
  · show (db.notes.map (fun n =>
        if n.id == note.id then { n with status := "возврат" } else n)).find?
        (fun n => n.id == note_id) = some { note with status := "возврат" }
    rw [find?_map_pres (fun n => n.id == note_id)
        (fun n => if n.id == note.id then { n with status := "возврат" } else n)
        (fun x => by
          by_cases hx : (x.id == note.id) = true
          · simp only [if_pos hx]
          · simp only [if_neg hx]) db.notes,
      show db.notes.find? (fun n => n.id == note_id) = some note from hn,
      Option.map_some', if_pos (by simp)]
  · show (db.locations.map (fun l =>
        if l.id == loc.id then
          { l with quantity := l.quantity + note.quantity, status := "на складе" }
        else l)).find? (returnLocPred note)
        = some { loc with
                 status := "на складе",
                 quantity := loc.quantity + note.quantity }
    rw [find?_map_pres (returnLocPred note)
        (fun l => if l.id == loc.id then
          { l with quantity := l.quantity + note.quantity, status := "на складе" }
        else l)
        (fun x => by
          by_cases hx : (x.id == loc.id) = true
          · simp only [if_pos hx]
            rfl
          · simp only [if_neg hx]) db.locations,
      hloc, Option.map_some']
    rw [if_pos (by simp)]
  · show (db.boxes.map (fun bx =>
        if bx.id == bid then
          { bx with current_count := bx.current_count + note.quantity }
        else bx)).find? (fun bx => bx.id == bid)
        = some { box with current_count := box.current_count + note.quantity }
    rw [findBox_map_update db.boxes bid _ (fun bx => by
        by_cases hbx : (bx.id == bid) = true
        · simp only [if_pos hbx]
        · simp only [if_neg hbx]),
      show db.boxes.find? (fun bx => bx.id == bid) = some box from hb,
      Option.map_some', if_pos hbba]

/-- C7: Return has no guard on the note's status.  After a first Return has
set the note to returned, a second Return of the same note is accepted and
credits the matching location row and the box occupancy with the note
quantity again, so two Returns of one note double-credit the stock. -/
theorem return_no_status_guard_double_credit
    (db : DB) (note_id bid : Nat) (note : ServiceNote)
    (loc : CartridgeLocation) (box : Box)
    (hn : findNote db note_id = some note)
    (hbid : note.box_id = some bid)
    (hb : findBox db bid = some box)
    (hloc : db.locations.find? (returnLocPred note) = some loc) :
    ∃ db1 db2,
      return_cartridge db note_id = Except.ok db1 ∧
      findNote db1 note_id = some { note with status := "возврат" } ∧
      return_cartridge db1 note_id = Except.ok db2 ∧
      db2.locations.find? (returnLocPred note)
        = some { loc with
                 status := "на складе",
                 quantity := loc.quantity + note.quantity + note.quantity } ∧
      findBox db2 bid
        = some { box with
                 current_count := box.current_count + note.quantity + note.quantity } := by
  obtain ⟨db1, e1, e2, e3, e4⟩ :=
    return_cartridge_spec db note_id bid note loc box hn hbid hb hloc
  obtain ⟨db2, f1, f2, f3, f4⟩ :=
    return_cartridge_spec db1 note_id bid { note with status := "возврат" }
      { loc with status := "на складе", quantity := loc.quantity + note.quantity }
      { box with current_count := box.current_count + note.quantity }
      e2 hbid e4 e3
  exact ⟨db1, db2, e1, e2, f1, f3, f4⟩

/-- Store with one already-issued note (2 units from box A), a matching
in-stock location row and the box, ready to be returned twice. -/
def dbReturn : DB :=
  { emptyDB with
    cartridges := [{ id := 1, article := "CB435A", model := "HP LJ P1005",
                     initial_quantity := 5, total_quantity := 0 }],
    boxes := [{ id := 1, warehouse_id := 1, box_number := "A",
                capacity := 10, current_count := 4 }],
    locations := [{ id := 1, cartridge_id := 1, box_id := some 1,
                    employee_id := none, status := "на складе", quantity := 3 }],
    notes := [{ id := 1, note_number := "КАРТ-2025-001", year := 2025,
                author_id := none, recipient_id := 7, cartridge_id := 1,
                quantity := 2, box_id := some 1, reason := "ремонт",
                comment := none, status := "выдано" }],
    nextCartId := 2, nextBoxId := 2, nextLocId := 2, nextNoteId := 2 }

/-- Witness for C7 at a concrete store: returning note 1 (2 units) twice is
accepted both times and leaves box occupancy at 4 + 2 + 2 = 8. -/
theorem return_no_status_guard_double_credit_witness :
    ∃ db1 db2,
      return_cartridge dbReturn 1 = Except.ok db1 ∧
      return_cartridge db1 1 = Except.ok db2 ∧
      findBox db2 1 = some { id := 1, warehouse_id := 1, box_number := "A",
                             capacity := 10, current_count := 8 } := by
  obtain ⟨db1, db2, e1, _, f1, _, f4⟩ :=
    return_no_status_guard_double_credit dbReturn 1 1
      { id := 1, note_number := "КАРТ-2025-001", year := 2025,
        author_id := none, recipient_id := 7, cartridge_id := 1,
        quantity := 2, box_id := some 1, reason := "ремонт",
        comment := none, status := "выдано" }
      { id := 1, cartridge_id := 1, box_id := some 1,
        employee_id := none, status := "на складе", quantity := 3 }
      { id := 1, warehouse_id := 1, box_number := "A",
        capacity := 10, current_count := 4 }
      rfl rfl rfl rfl
  refine ⟨db1, db2, e1, f1, ?_⟩
  rw [f4]
  decide

/-- C2 as amended: for an Issue immediately followed by a Return of the note
it created, on a store holding at most one location row per (cartridge, box)
pair (and with distinct location-row ids, box occupancy dominating each of its
in-stock rows, and a fresh note id), the box table and the location table
return exactly to their pre-issue state, while the cartridge's
`total_quantity` stays decremented by the issued quantity and does not return
to its pre-issue value.  The one-row-per-pair hypothesis is essential: the
program can reach stores with a stale issued row next to an in-stock row for
the same pair, and there the Return credits the stale row instead of the
debited one (see `issue_then_return_not_restoring`). -/
theorem issue_then_return_restores
    (db db1 db2 : DB) (year recipient_id cartridge_id : Nat) (quantity : Int)
    (reason : String)
    (hq : 1 ≤ quantity)
    (hnodup : (db.locations.map CartridgeLocation.id).Nodup)
    (hpair : ∀ l1 ∈ db.locations, ∀ l2 ∈ db.locations,
      l1.cartridge_id = l2.cartridge_id → l1.box_id = l2.box_id → l1.id = l2.id)
    (hbox : ∀ b ∈ db.boxes, ∀ l ∈ db.locations,
      l.box_id = some b.id → l.status = "на складе" → l.quantity ≤ b.current_count)
    (hfresh : ∀ n ∈ db.notes, n.id ≠ db.nextNoteId)
    (h1 : create_service_note db year recipient_id cartridge_id quantity reason none
      = Except.ok db1)
    (h2 : return_cartridge db1 db.nextNoteId = Except.ok db2) :
    db2.boxes = db.boxes ∧ db2.locations = db.locations ∧
    ∃ cr, findCartridge db cartridge_id = some cr ∧
      findCartridge db2 cartridge_id
        = some { cr with total_quantity := cr.total_quantity - quantity } ∧
      cr.total_quantity - quantity ≠ cr.total_quantity := by
  unfold create_service_note at h1
  cases hpick : pickIssueLoc db.locations cartridge_id quantity with
  | none => rw [hpick] at h1; cases h1
  | some loc =>
  rw [hpick] at h1
  obtain ⟨hlmem, helig⟩ := pickIssueLoc_mem hpick
  obtain ⟨hlcid, hlst, hlq⟩ := issueElig_iff.mp helig
  cases hcr : findCartridge db cartridge_id with
  | none => simp only [hcr] at h1; cases h1
  | some cr =>
  simp only [hcr] at h1
  have hcrid : (cr.id == cartridge_id) = true := by
    have hcr' : db.cartridges.find? (fun c => c.id == cartridge_id) = some cr := hcr
    have h3 := List.find?_some hcr'
    exact h3
  by_cases hlt : cr.total_quantity < quantity
  · rw [if_pos hlt] at h1; cases h1
  rw [if_neg hlt] at h1
  injection h1 with h1
  have hb1notes : db1.notes = db.notes ++
      [{ id := db.nextNoteId, note_number := generate_note_number db year,
         year := year, author_id := none, recipient_id := recipient_id,
         cartridge_id := cartridge_id, quantity := quantity,
         box_id := loc.box_id, reason := reason, comment := none,
         status := "выдано" }] := by
    rw [← h1]
  have hb1locs : db1.locations = db.locations.map (fun l =>
      if l.id == loc.id then
        { l with quantity := l.quantity - quantity,
                 status := if l.quantity - quantity ≤ 0 then "выдано" else l.status }
      else l) := by
    rw [← h1]
  have hb1carts : db1.cartridges = db.cartridges.map (fun c =>
      if c.id == cartridge_id then
        { c with total_quantity := max 0 (c.total_quantity - quantity) }
      else c) := by
    rw [← h1]
  have hfn : findNote db1 db.nextNoteId = some
      { id := db.nextNoteId, note_number := generate_note_number db year,
        year := year, author_id := none, recipient_id := recipient_id,
        cartridge_id := cartridge_id, quantity := quantity,
        box_id := loc.box_id, reason := reason, comment := none,
        status := "выдано" } := by
    show db1.notes.find? (fun n => n.id == db.nextNoteId) = _
    rw [hb1notes, List.find?_append,
      List.find?_eq_none.mpr (fun x hx => by simpa using hfresh x hx)]
    simp
  have hfind0 : db.locations.find? (returnLocPred
      { id := db.nextNoteId, note_number := generate_note_number db year,
        year := year, author_id := none, recipient_id := recipient_id,
        cartridge_id := cartridge_id, quantity := quantity,
        box_id := loc.box_id, reason := reason, comment := none,
        status := "выдано" }) = some loc := by
    apply find?_eq_some_of_unique hlmem
    · show returnLocPred _ loc = true
      simp [returnLocPred, hlcid]
    · intro y hy hpy
      have hy2 : y.cartridge_id = cartridge_id ∧ y.box_id = loc.box_id := by
        simpa [returnLocPred] using hpy
      exact List.inj_on_of_nodup_map hnodup hy hlmem
        (hpair y hy loc hlmem (by rw [hy2.1, hlcid]) hy2.2)
  have hfound : db1.locations.find? (returnLocPred
      { id := db.nextNoteId, note_number := generate_note_number db year,
        year := year, author_id := none, recipient_id := recipient_id,
        cartridge_id := cartridge_id, quantity := quantity,
        box_id := loc.box_id, reason := reason, comment := none,
        status := "выдано" })
      = some { loc with
               quantity := loc.quantity - quantity,
               status := if loc.quantity - quantity ≤ 0 then "выдано" else loc.status } := by
    rw [hb1locs, find?_map_pres _
      (fun l => if l.id == loc.id then
        { l with quantity := l.quantity - quantity,
                 status := if l.quantity - quantity ≤ 0 then "выдано" else l.status }
      else l)
      (fun x => by
        by_cases hx : (x.id == loc.id) = true
        · simp only [if_pos hx]
          rfl
        · simp only [if_neg hx]) db.locations,
      hfind0, Option.map_some']
    rw [if_pos (by simp)]
  simp only [return_cartridge, hfn, Except.ok.injEq] at h2
  subst h2
  refine ⟨?_, ?_, ?_⟩
  · cases hbid : loc.box_id with
    | none =>
      have hb1boxes : db1.boxes = db.boxes := by
        rw [← h1]
        simp only [hbid]
      rw [apply_return_boxes_none db1 _ rfl, hb1boxes]
    | some b =>
      have hb1boxes : db1.boxes = db.boxes.map (fun bx =>
          if bx.id == b then
            { bx with current_count := max 0 (bx.current_count - quantity) }
          else bx) := by
        rw [← h1]
        simp only [hbid]
      rw [apply_return_boxes_some db1 _ b rfl, hb1boxes, List.map_map]
      refine (List.map_congr_left ?_).trans (List.map_id' _)
      intro bx hbxmem
      by_cases hbb : (bx.id == b) = true
      · have hbeq : bx.id = b := by simpa using hbb
        have hql : quantity ≤ bx.current_count :=
          le_trans hlq (hbox bx hbxmem loc hlmem (by rw [hbid, hbeq]) hlst)
        have hmax : max 0 (bx.current_count - quantity) = bx.current_count - quantity :=
          max_eq_right (by omega)
        simp only [Function.comp, if_pos hbb, hmax, sub_add_cancel]
      · simp only [Function.comp, if_neg hbb]
  · rw [apply_return_locations_found db1 _ _ hfound, hb1locs, List.map_map]
    refine (List.map_congr_left ?_).trans (List.map_id' _)
    intro x hx
    by_cases hxl : (x.id == loc.id) = true
    · have hxeq : x = loc :=
        List.inj_on_of_nodup_map hnodup hx hlmem (by simpa using hxl)
      rw [hxeq]
      have hll : (loc.id == loc.id) = true := by simp
      simp only [Function.comp, if_pos hll, sub_add_cancel, ← hlst]
    · simp only [Function.comp, if_neg hxl]
  · refine ⟨cr, rfl, ?_, by omega⟩
    show (apply_return db1 _).cartridges.find? (fun c => c.id == cartridge_id) = _
    rw [apply_return_cartridges, hb1carts,
      find?_map_pres (fun c => c.id == cartridge_id)
        (fun c => if c.id == cartridge_id then
          { c with total_quantity := max 0 (c.total_quantity - quantity) }
        else c)
        (fun x => by
          by_cases hx : (x.id == cartridge_id) = true
          · simp only [if_pos hx]
          · simp only [if_neg hx]) db.cartridges,
      show db.cartridges.find? (fun c => c.id == cartridge_id) = some cr from hcr,
      Option.map_some', if_pos hcrid,
      max_eq_right (by omega : (0 : Int) ≤ cr.total_quantity - quantity)]

/-- Witness for C2 at the scenario store: issue 4 of 10, return the note —
box occupancy and the location row are back at 10, while `total_quantity`
stays at 6. -/
theorem issue_then_return_restores_witness :
    ∃ db1 db2,
      create_service_note dbScenario 2025 5 1 4 "ремонт" none = Except.ok db1 ∧
      return_cartridge db1 dbScenario.nextNoteId = Except.ok db2 ∧
      db2.boxes = dbScenario.boxes ∧ db2.locations = dbScenario.locations ∧
      ∃ cr, findCartridge dbScenario 1 = some cr ∧
        findCartridge db2 1 = some { cr with total_quantity := cr.total_quantity - 4 } ∧
        cr.total_quantity - 4 ≠ cr.total_quantity := by
  have h := issue_then_return_restores dbScenario _ _ 2025 5 1 4 "ремонт"
    (by decide) (by decide) (by decide) (by decide) (by decide) rfl rfl
  exact ⟨_, _, rfl, rfl, h.1, h.2.1, h.2.2⟩

/-- C2 counterexample to the unqualified claim: the program reaches a store
(third state of the capacity trace) holding a stale issued row at quantity 0
next to the in-stock row for the same (cartridge, box) pair.  There, an Issue
of 3 (debiting the in-stock row 5 → 2) followed immediately by the Return of
the note it created leaves the debited row at quantity 2 instead of restoring
it to 5: the Return's status-less location query credits the stale first row
(0 → 3), exactly as the source's unfiltered `.first()` does, so the affected
location row does not return to its pre-issue value. -/
theorem issue_then_return_not_restoring :
    ∃ dbA dbB dbC dbD dbE,
      add_cartridge_to_stock dbT0 1 1 5 = Except.ok dbA ∧
      create_service_note dbA 2025 1 1 5 "ремонт" none = Except.ok dbB ∧
      add_cartridge_to_stock dbB 1 1 5 = Except.ok dbC ∧
      create_service_note dbC 2025 1 1 3 "ремонт" none = Except.ok dbD ∧
      return_cartridge dbD dbC.nextNoteId = Except.ok dbE ∧
      (dbC.locations.find? (fun l => l.id == 2)).map (fun l => l.quantity) = some 5 ∧
      (dbE.locations.find? (fun l => l.id == 2)).map (fun l => l.quantity) = some 2 ∧
      dbE.locations ≠ dbC.locations := by
  refine ⟨_, _, _, _, _, rfl, rfl, rfl, rfl, rfl, ?_, ?_, ?_⟩ <;> decide
